import Mathlib

/-!
Verification of the portfolio backend (src/main.py, src/schemas.py).

The backend is shallowly embedded: a Mongo-style document is an ordered
association list of field names to dynamic values; each HTTP handler becomes
a Lean function parameterised by the outcome of its storage calls (the
`database` module and the HTTP/validation framework are external
collaborators, so their results are passed in explicitly).
-/

namespace Backend

/-- Dynamic values stored in documents: Python None, strings, BSON ObjectIds
(carrying their hex rendering), datetimes (the only values with an
`isoformat` attribute, carried as an abstract timestamp), ints, bools, and
lists of strings (tag lists / collection names). -/
inductive Value where
  | vNull : Value
  | vStr : String → Value
  | vOid : String → Value
  | vDatetime : Nat → Value
  | vInt : Int → Value
  | vBool : Bool → Value
  | vList : List String → Value
deriving DecidableEq, Repr

/-- Abstract rendering of a timestamp as its ISO-8601 string; models
`datetime.isoformat()` of the external datetime library. -/
def isoStr (t : Nat) : String := toString t

/-- Python `str(...)` on the values that can appear in a document. -/
def pyStr : Value → String
  | Value.vNull => "None"
  | Value.vStr s => s
  | Value.vOid s => s
  | Value.vDatetime t => isoStr t
  | Value.vInt n => toString n
  | Value.vBool true => "True"
  | Value.vBool false => "False"
  | Value.vList ls => toString ls

/-- Python `hasattr(v, "isoformat")`: true exactly for date/time values. -/
def hasIsoformat : Value → Bool
  | Value.vDatetime _ => true
  | _ => false

/-- `v.isoformat()` where defined; identity elsewhere (never called there). -/
def isoformat : Value → Value
  | Value.vDatetime t => Value.vStr (isoStr t)
  | v => v

/-- A document: ordered association list of field names to values (a Python
dict preserves insertion order). -/
abbrev Doc := List (String × Value)

/-- Dict lookup returning the stored value if the key is present (a dict
holds each key at most once; lookup takes the first binding). -/
def dGet? : Doc → String → Option Value
  | [], _ => none
  | p :: t, k => if p.1 = k then some p.2 else dGet? t k

/-- Python `d.get(k)`: the stored value, or None if absent. -/
def dGet (d : Doc) (k : String) : Value :=
  (dGet? d k).getD Value.vNull

/-- Python `d.get(k, dflt)`. -/
def dGetD (d : Doc) (k : String) (dflt : Value) : Value :=
  (dGet? d k).getD dflt

/-- Python `k in d`. -/
def dHas : Doc → String → Bool
  | [], _ => false
  | p :: t, k => if p.1 = k then true else dHas t k

/-- Python `d.pop(k)` (the removal part): drop the key from the dict. -/
def dErase : Doc → String → Doc
  | [], _ => []
  | p :: t, k => if p.1 = k then dErase t k else p :: dErase t k

/-- Python `d[k] = v`: overwrite in place if the key is present (keeping its
position, as dicts do), else append the new binding. -/
def dSet : Doc → String → Value → Doc
  | [], k, v => [(k, v)]
  | p :: t, k, v => if p.1 = k then (k, v) :: t else p :: dSet t k v

/-- One iteration of `_serialize`'s datetime loop for a key `k`:
`if k in d and hasattr(d[k], "isoformat"): d[k] = d[k].isoformat()`. -/
def isoCoerce (d : Doc) (k : String) : Doc :=
  match dGet? d k with
  | some v => if hasIsoformat v then dSet d k (isoformat v) else d
  | none => d

/-- `_serialize(doc)` from src/main.py: falsy (empty) input yields `{}`;
otherwise pop `_id` (renaming it to a string-valued `id` when not None) and
coerce the `created_at` / `updated_at` fields to ISO strings when they are
datetimes. -/
def serialize : Doc → Doc
  | [] => []
  | p :: t =>
    let doc := p :: t
    let oid := dGet doc "_id"
    let d := dErase doc "_id"
    let d := if oid ≠ Value.vNull then dSet d "id" (Value.vStr (pyStr oid)) else d
    let d := isoCoerce d "created_at"
    isoCoerce d "updated_at"

/-- `_serialize` applied to a possibly absent document (Python `not doc` is
true both for None and for `{}`). -/
def serializeOpt : Option Doc → Doc
  | none => []
  | some d => serialize d

/-- The project arm of `combined_portfolio`'s normalization loop. -/
def normalizeProject (p : Doc) : Doc :=
  let d := serialize p
  [("id", dGet d "id"),
   ("type", Value.vStr "project"),
   ("title", dGet d "title"),
   ("description", dGet d "description"),
   ("image", dGet d "image_url"),
   ("demo", dGet d "demo_url"),
   ("source", dGet d "source_url"),
   ("author", dGet d "author"),
   ("tags", dGetD d "tags" (Value.vList []))]

/-- The submission arm of `combined_portfolio`'s normalization loop. -/
def normalizeSubmission (s : Doc) : Doc :=
  let d := serialize s
  [("id", dGet d "id"),
   ("type", Value.vStr "submission"),
   ("title", dGet d "title"),
   ("description", dGet d "description"),
   ("image", dGet d "thumbnail"),
   ("demo", dGet d "link"),
   ("source", Value.vNull),
   ("author", dGet d "name"),
   ("tags", dGetD d "tags" (Value.vList []))]

/-- The `sort_key` closure defined (but never applied) inside
`combined_portfolio`: `x.get("updated_at") or x.get("created_at") or ""`.
Python `or` keeps the first truthy operand. -/
def truthy : Value → Bool
  | Value.vNull => false
  | Value.vStr s => !s.isEmpty
  | Value.vOid _ => true
  | Value.vDatetime _ => true
  | Value.vInt n => n ≠ 0
  | Value.vBool b => b
  | Value.vList ls => !ls.isEmpty

def pyOr (a b : Value) : Value := if truthy a then a else b

def sort_key (x : Doc) : Value :=
  pyOr (pyOr (dGet x "updated_at") (dGet x "created_at")) (Value.vStr "")

/-- An `HTTPException(status_code, detail)` raised by a handler. -/
structure HTTPException where
  status_code : Nat
  detail : String
deriving DecidableEq, Repr

/-- The outcome of `get_documents(kind, {}, limit)`: the storage collaborator
either returns the documents of that kind, or raises. -/
abbrev Storage := String → Nat → Except String (List Doc)

/-- `list_projects(limit)` handler: fetch kind "project" with no filter,
serialize each document in order; any storage failure becomes a 500 carrying
the failure text. Returns the `items` field of the response body. -/
def list_projects (get_documents : Storage) (limit : Nat) :
    Except HTTPException (List Doc) :=
  match get_documents "project" limit with
  | Except.ok items => Except.ok (items.map serialize)
  | Except.error e => Except.error ⟨500, e⟩

/-- `list_submissions(limit)` handler, identical but for kind "submission". -/
def list_submissions (get_documents : Storage) (limit : Nat) :
    Except HTTPException (List Doc) :=
  match get_documents "submission" limit with
  | Except.ok items => Except.ok (items.map serialize)
  | Except.error e => Except.error ⟨500, e⟩

/-- The body of `combined_portfolio` after both fetches succeed: the two
normalization `for` loops appending into `normalized`, then
`list(reversed(normalized))[:limit]`. -/
def portfolio_items (projects submissions : List Doc) (limit : Nat) : List Doc :=
  let normalized : List Doc :=
    projects.foldl (fun acc p => acc ++ [normalizeProject p]) []
  let normalized :=
    submissions.foldl (fun acc s => acc ++ [normalizeSubmission s]) normalized
  (normalized.reverse).take limit

/-- `combined_portfolio(limit)` handler: fetch projects then submissions
(each capped at `limit`), normalize, reverse, truncate; a failure of either
fetch raises out of the shared `try` and becomes a 500. -/
def combined_portfolio (get_documents : Storage) (limit : Nat) :
    Except HTTPException (List Doc) :=
  match get_documents "project" limit with
  | Except.error e => Except.error ⟨500, e⟩
  | Except.ok projects =>
    match get_documents "submission" limit with
    | Except.error e => Except.error ⟨500, e⟩
    | Except.ok submissions =>
      Except.ok (portfolio_items projects submissions limit)

/-- A validated `Submission` body (src/schemas.py): `name` and `title`
required strings; `description`, `link`, `thumbnail` optional; `tags`
defaulting to the empty list. -/
structure Submission where
  name : String
  title : String
  description : Option String
  link : Option String
  thumbnail : Option String
  tags : List String
deriving DecidableEq, Repr

/-- Modelled from the spec: well-formedness of a pydantic `HttpUrl`
(validation library is an external collaborator); approximated as carrying
an http(s) scheme. -/
def isHttpUrlOk (s : String) : Bool :=
  s.startsWith "http://" || s.startsWith "https://"

/-- A required `str` field: missing or non-string input is a validation
error. -/
def requiredStr (raw : Doc) (k : String) : Except String String :=
  match dGet? raw k with
  | some (Value.vStr s) => Except.ok s
  | some _ => Except.error (k ++ ": str type expected")
  | none => Except.error (k ++ ": field required")

/-- An `Optional[str]` field: absent or None yields none. -/
def optionalStr (raw : Doc) (k : String) : Except String (Option String) :=
  match dGet? raw k with
  | none => Except.ok none
  | some Value.vNull => Except.ok none
  | some (Value.vStr s) => Except.ok (some s)
  | some _ => Except.error (k ++ ": str type expected")

/-- An `Optional[HttpUrl]` field: absent or None yields none; a string must
be a well-formed URL. -/
def optionalUrl (raw : Doc) (k : String) : Except String (Option String) :=
  match dGet? raw k with
  | none => Except.ok none
  | some Value.vNull => Except.ok none
  | some (Value.vStr s) =>
    if isHttpUrlOk s then Except.ok (some s)
    else Except.error (k ++ ": invalid or missing URL scheme")
  | some _ => Except.error (k ++ ": url type expected")

/-- The `tags: List[str]` field with `default_factory=list`. -/
def tagsField (raw : Doc) : Except String (List String) :=
  match dGet? raw "tags" with
  | none => Except.ok []
  | some (Value.vList ls) => Except.ok ls
  | some _ => Except.error "tags: list type expected"

/-- Modelled from the spec: FastAPI/pydantic request-body validation against
the `Submission` schema of src/schemas.py (the validation library itself is
an external collaborator); a failing field rejects the request before the
handler body runs. -/
def validate_submission (raw : Doc) : Except String Submission :=
  match requiredStr raw "name" with
  | Except.error e => Except.error e
  | Except.ok nm =>
  match requiredStr raw "title" with
  | Except.error e => Except.error e
  | Except.ok ttl =>
  match optionalStr raw "description" with
  | Except.error e => Except.error e
  | Except.ok descr =>
  match optionalUrl raw "link" with
  | Except.error e => Except.error e
  | Except.ok lnk =>
  match optionalUrl raw "thumbnail" with
  | Except.error e => Except.error e
  | Except.ok thumb =>
  match tagsField raw with
  | Except.error e => Except.error e
  | Except.ok tg => Except.ok ⟨nm, ttl, descr, lnk, thumb, tg⟩

/-- `submit_portfolio(item)` handler body: persist via
`create_document("submission", item)` and answer
`{"success": True, "id": new_id}`; a storage failure becomes a 500. -/
def submit_portfolio (item : Submission)
    (create_document : Submission → Except String String) :
    Except HTTPException Doc :=
  match create_document item with
  | Except.ok new_id =>
    Except.ok [("success", Value.vBool true), ("id", Value.vStr new_id)]
  | Except.error e => Except.error ⟨500, e⟩

/-- The `/api/submit` endpoint as seen by a client: framework validation of
the raw body, then the handler. The second component records the documents
handed to storage, so "no storage call was made" is expressible. A
validation failure is a 422 client error. -/
def submit_endpoint (raw : Doc)
    (create_document : Submission → Except String String) :
    Except HTTPException Doc × List Submission :=
  match validate_submission raw with
  | Except.error e => (Except.error ⟨422, e⟩, [])
  | Except.ok item => (submit_portfolio item create_document, [item])

/-- Python `s[:n]` on a string (slicing by code points). -/
def pyTakeStr (s : String) (n : Nat) : String :=
  String.mk (s.data.take n)

/-- The state of the process-wide `db` handle as `test_database` can observe
it: `noneDb` when the imported `db` is None; otherwise its `.name` attribute
when present, and the outcome of `db.list_collection_names()`. -/
inductive DbHandle where
  | noneDb : DbHandle
  | someDb : Option String → Except String (List String) → DbHandle

/-- Presence of the two environment variables read at the end of
`test_database`. -/
structure Env where
  database_url_set : Bool
  database_name_set : Bool

/-- The diagnostic response dict built by `test_database`. The two
environment fields start as None and only ever hold strings afterwards, so
they are kept `Value`-typed. -/
structure HealthResponse where
  backend : String
  database : String
  database_url : Value
  database_name : Value
  connection_status : String
  collections : List String
deriving DecidableEq, Repr

/-- The `/test` handler `test_database` from src/main.py, field for field:
initial response dict, the `db` branch with its inner try around
`list_collection_names`, then the unconditional environment-variable
overwrites of `database_url` / `database_name`. -/
def test_database (db : DbHandle) (env : Env) : HealthResponse :=
  let response : HealthResponse :=
    { backend := "✅ Running",
      database := "❌ Not Available",
      database_url := Value.vNull,
      database_name := Value.vNull,
      connection_status := "Not Connected",
      collections := [] }
  let response :=
    match db with
    | DbHandle.noneDb =>
      { response with database := "⚠️  Available but not initialized" }
    | DbHandle.someDb dbName listColl =>
      let response :=
        { response with
          database := "✅ Available",
          database_url := Value.vStr "✅ Configured",
          database_name :=
            Value.vStr (match dbName with
              | some n => n
              | none => "✅ Connected"),
          connection_status := "Connected" }
      match listColl with
      | Except.ok cols =>
        { response with
          collections := cols.take 10,
          database := "✅ Connected & Working" }
      | Except.error e =>
        { response with
          database := "⚠️  Connected but Error: " ++ pyTakeStr e 50 }
  { response with
    database_url :=
      Value.vStr (if env.database_url_set then "✅ Set" else "❌ Not Set"),
    database_name :=
      Value.vStr (if env.database_name_set then "✅ Set" else "❌ Not Set") }

/-! ### Dictionary-operation lemmas -/

theorem dGet?_erase_ne (d : Doc) (k j : String) (h : k ≠ j) :
    dGet? (dErase d j) k = dGet? d k := by
  induction d with
  | nil => rfl
  | cons p t ih =>
    by_cases hp : p.1 = j
    · have hk : ¬ p.1 = k := fun hh => h (hh.symm.trans hp)
      simp only [dErase, dGet?, if_pos hp, if_neg hk]
      exact ih
    · by_cases hk : p.1 = k
      · simp only [dErase, dGet?, if_neg hp, if_pos hk]
      · simp only [dErase, dGet?, if_neg hp, if_neg hk]
        exact ih

theorem dGet?_erase_self (d : Doc) (k : String) :
    dGet? (dErase d k) k = none := by
  induction d with
  | nil => rfl
  | cons p t ih =>
    by_cases hp : p.1 = k
    · simp only [dErase, if_pos hp]
      exact ih
    · simp only [dErase, dGet?, if_neg hp]
      exact ih

theorem dGet?_set_self (d : Doc) (k : String) (v : Value) :
    dGet? (dSet d k v) k = some v := by
  induction d with
  | nil => simp [dSet, dGet?]
  | cons p t ih =>
    by_cases hp : p.1 = k
    · simp [dSet, dGet?, if_pos hp]
    · simp only [dSet, dGet?, if_neg hp]
      exact ih

theorem dGet?_set_ne (d : Doc) (k j : String) (v : Value) (h : k ≠ j) :
    dGet? (dSet d j v) k = dGet? d k := by
  induction d with
  | nil =>
    have hj : ¬ (j = k) := fun hh => h hh.symm
    simp [dSet, dGet?, hj]
  | cons p t ih =>
    by_cases hp : p.1 = j
    · have hk : ¬ p.1 = k := fun hh => h (hh.symm.trans hp)
      have hj : ¬ (j = k) := fun hh => h hh.symm
      simp only [dSet, dGet?, if_pos hp, if_neg hk, if_neg hj]
    · by_cases hk : p.1 = k
      · simp only [dSet, dGet?, if_neg hp, if_pos hk]
      · simp only [dSet, dGet?, if_neg hp, if_neg hk]
        exact ih

theorem dGet?_isoCoerce_ne (d : Doc) (k j : String) (h : k ≠ j) :
    dGet? (isoCoerce d j) k = dGet? d k := by
  unfold isoCoerce
  cases hj : dGet? d j with
  | none => rfl
  | some v =>
    by_cases hv : hasIsoformat v
    · simp only [hv, if_pos]
      exact dGet?_set_ne d k j _ h
    · simp only [hv]
      rfl

theorem dGet?_isoCoerce_self_datetime (d : Doc) (k : String) (t0 : Nat)
    (h : dGet? d k = some (Value.vDatetime t0)) :
    dGet? (isoCoerce d k) k = some (Value.vStr (isoStr t0)) := by
  unfold isoCoerce
  rw [h]
  simp only [hasIsoformat, isoformat, if_pos]
  exact dGet?_set_self d k _

theorem dGet?_isoCoerce_self_other (d : Doc) (k : String) (v : Value)
    (h : dGet? d k = some v) (hni : hasIsoformat v = false) :
    dGet? (isoCoerce d k) k = some v := by
  unfold isoCoerce
  rw [h]
  simp only [hni, Bool.false_eq_true, if_false]
  exact h

theorem dGet?_eq_none_of_not_mem_keys (d : Doc) (k : String)
    (h : ¬ k ∈ d.map Prod.fst) : dGet? d k = none := by
  induction d with
  | nil => rfl
  | cons p t ih =>
    simp only [List.map_cons, List.mem_cons] at h
    push_neg at h
    have hne : ¬ (p.1 = k) := fun hh => h.1 hh.symm
    simp only [dGet?, if_neg hne]
    exact ih h.2

/-! ### Serialization lemmas -/

/-- Fields other than `_id`, `id`, `created_at`, `updated_at` pass through
`_serialize` unchanged. -/
theorem dGet?_serialize_other (doc : Doc) (k : String)
    (h1 : k ≠ "_id") (h2 : k ≠ "id")
    (h3 : k ≠ "created_at") (h4 : k ≠ "updated_at") :
    dGet? (serialize doc) k = dGet? doc k := by
  cases doc with
  | nil => rfl
  | cons p t =>
    simp only [serialize]
    rw [dGet?_isoCoerce_ne _ _ _ h4, dGet?_isoCoerce_ne _ _ _ h3]
    by_cases hoid : dGet (p :: t) "_id" = Value.vNull
    · rw [if_neg (not_not_intro hoid), dGet?_erase_ne _ _ _ h1]
    · rw [if_pos hoid, dGet?_set_ne _ _ _ _ h2, dGet?_erase_ne _ _ _ h1]

/-- The `_id` key never survives `_serialize`. -/
theorem dGet?_serialize_id_removed (doc : Doc) :
    dGet? (serialize doc) "_id" = none := by
  cases doc with
  | nil => rfl
  | cons p t =>
    simp only [serialize]
    rw [dGet?_isoCoerce_ne _ _ _ (by decide), dGet?_isoCoerce_ne _ _ _ (by decide)]
    by_cases hoid : dGet (p :: t) "_id" = Value.vNull
    · rw [if_neg (not_not_intro hoid), dGet?_erase_self]
    · rw [if_pos hoid, dGet?_set_ne _ _ _ _ (by decide), dGet?_erase_self]

/-- A non-None `_id` reappears as a string-valued `id`. -/
theorem dGet?_serialize_id (doc : Doc) (v : Value)
    (hv : dGet? doc "_id" = some v) (hnn : v ≠ Value.vNull) :
    dGet? (serialize doc) "id" = some (Value.vStr (pyStr v)) := by
  cases doc with
  | nil => simp [dGet?] at hv
  | cons p t =>
    have hget : dGet (p :: t) "_id" = v := by
      unfold dGet
      rw [hv]
      rfl
    simp only [serialize]
    rw [dGet?_isoCoerce_ne _ _ _ (by decide), dGet?_isoCoerce_ne _ _ _ (by decide)]
    rw [hget, if_pos hnn, dGet?_set_self]

/-- When neither `_id` nor `id` occurs in the input, the output has no
`id` field either. -/
theorem dGet?_serialize_id_none (doc : Doc)
    (h1 : dGet? doc "_id" = none) (h2 : dGet? doc "id" = none) :
    dGet? (serialize doc) "id" = none := by
  cases doc with
  | nil => rfl
  | cons p t =>
    have hoid : dGet (p :: t) "_id" = Value.vNull := by
      unfold dGet
      rw [h1]
      rfl
    simp only [serialize]
    rw [dGet?_isoCoerce_ne _ _ _ (by decide), dGet?_isoCoerce_ne _ _ _ (by decide)]
    rw [hoid, if_neg (not_not_intro rfl), dGet?_erase_ne _ _ _ (by decide)]
    exact h2

/-- A datetime stored under `created_at` or `updated_at` is coerced to its
ISO string. -/
theorem dGet?_serialize_datetime (doc : Doc) (k : String) (t0 : Nat)
    (hk : k = "created_at" ∨ k = "updated_at")
    (hv : dGet? doc k = some (Value.vDatetime t0)) :
    dGet? (serialize doc) k = some (Value.vStr (isoStr t0)) := by
  cases doc with
  | nil => simp [dGet?] at hv
  | cons p t =>
    have hkid : k ≠ "_id" := by rcases hk with rfl | rfl <;> decide
    have hkid2 : k ≠ "id" := by rcases hk with rfl | rfl <;> decide
    have hmid : dGet?
        (if dGet (p :: t) "_id" ≠ Value.vNull then
          dSet (dErase (p :: t) "_id") "id" (Value.vStr (pyStr (dGet (p :: t) "_id")))
        else dErase (p :: t) "_id") k = some (Value.vDatetime t0) := by
      by_cases hoid : dGet (p :: t) "_id" = Value.vNull
      · rw [if_neg (not_not_intro hoid), dGet?_erase_ne _ _ _ hkid]
        exact hv
      · rw [if_pos hoid, dGet?_set_ne _ _ _ _ hkid2, dGet?_erase_ne _ _ _ hkid]
        exact hv
    simp only [serialize]
    rcases hk with rfl | rfl
    · rw [dGet?_isoCoerce_ne _ _ _ (by decide)]
      exact dGet?_isoCoerce_self_datetime _ _ _ hmid
    · exact dGet?_isoCoerce_self_datetime _ _ _
        (by rw [dGet?_isoCoerce_ne _ _ _ (by decide)]; exact hmid)

/-- A non-datetime value under `created_at` or `updated_at` passes through
unchanged. -/
theorem dGet?_serialize_nondatetime (doc : Doc) (k : String) (v : Value)
    (hk : k = "created_at" ∨ k = "updated_at")
    (hv : dGet? doc k = some v) (hni : hasIsoformat v = false) :
    dGet? (serialize doc) k = some v := by
  cases doc with
  | nil => simp [dGet?] at hv
  | cons p t =>
    have hkid : k ≠ "_id" := by rcases hk with rfl | rfl <;> decide
    have hkid2 : k ≠ "id" := by rcases hk with rfl | rfl <;> decide
    have hmid : dGet?
        (if dGet (p :: t) "_id" ≠ Value.vNull then
          dSet (dErase (p :: t) "_id") "id" (Value.vStr (pyStr (dGet (p :: t) "_id")))
        else dErase (p :: t) "_id") k = some v := by
      by_cases hoid : dGet (p :: t) "_id" = Value.vNull
      · rw [if_neg (not_not_intro hoid), dGet?_erase_ne _ _ _ hkid]
        exact hv
      · rw [if_pos hoid, dGet?_set_ne _ _ _ _ hkid2, dGet?_erase_ne _ _ _ hkid]
        exact hv
    simp only [serialize]
    rcases hk with rfl | rfl
    · rw [dGet?_isoCoerce_ne _ _ _ (by decide)]
      exact dGet?_isoCoerce_self_other _ _ _ hmid hni
    · exact dGet?_isoCoerce_self_other _ _ _
        (by rw [dGet?_isoCoerce_ne _ _ _ (by decide)]; exact hmid) hni

/-- Looking up an absent mapped-from field of a serialized record yields
None (for keys untouched by `_serialize`). -/
theorem dGet_serialize_none (p : Doc) (sk : String)
    (h1 : sk ≠ "_id") (h2 : sk ≠ "id")
    (h3 : sk ≠ "created_at") (h4 : sk ≠ "updated_at")
    (h : dGet? p sk = none) : dGet (serialize p) sk = Value.vNull := by
  unfold dGet
  rw [dGet?_serialize_other p sk h1 h2 h3 h4, h]
  rfl

/-! ### Loop-shape lemma -/

/-- A Python loop appending `f x` for each `x` builds `init ++ l.map f`. -/
theorem foldl_push_eq_map {α β : Type} (f : α → β) (l : List α) (init : List β) :
    l.foldl (fun acc x => acc ++ [f x]) init = init ++ l.map f := by
  induction l generalizing init with
  | nil => simp
  | cons x xs ih => simp [List.foldl_cons, ih, List.map_cons]

/-- The normalization loops plus `list(reversed(...))[:limit]` compute the
truncated reversal of the concatenated normalized fetches. -/
theorem portfolio_items_eq (projects submissions : List Doc) (limit : Nat) :
    portfolio_items projects submissions limit =
      ((projects.map normalizeProject ++
        submissions.map normalizeSubmission).reverse).take limit := by
  unfold portfolio_items
  simp only [foldl_push_eq_map]
  simp

/-- The learned key set of a normalized portfolio item. -/
def normKeys : List String :=
  ["id", "type", "title", "description", "image", "demo", "source", "author", "tags"]

/-- Normalized-key / source-key pairs of the project arm (besides `id` and
`tags`). -/
def projFieldPairs : List (String × String) :=
  [("title", "title"), ("description", "description"), ("image", "image_url"),
   ("demo", "demo_url"), ("source", "source_url"), ("author", "author")]

/-- Normalized-key / source-key pairs of the submission arm (besides `id`,
`source` and `tags`). -/
def subFieldPairs : List (String × String) :=
  [("title", "title"), ("description", "description"), ("image", "thumbnail"),
   ("demo", "link"), ("author", "name")]

/-- A validation failure caused by a missing `name` or `title` field. -/
theorem validate_submission_missing (raw : Doc)
    (h : dGet? raw "name" = none ∨ dGet? raw "title" = none) :
    ∃ e, validate_submission raw = Except.error e := by
  unfold validate_submission
  cases hn : requiredStr raw "name" with
  | error e => exact ⟨e, rfl⟩
  | ok nm =>
    have htitle : dGet? raw "title" = none := by
      rcases h with h1 | h1
      · simp [requiredStr, h1] at hn
      · exact h1
    have ht : requiredStr raw "title" = Except.error "title: field required" := by
      unfold requiredStr
      rw [htitle]
      rfl
    refine ⟨"title: field required", ?_⟩
    simp only [ht]

/-! ### Claim theorems -/

/-- C1: combinedPortfolio returns exactly the reversal of the concatenation
(normalized projects in fetch order, then normalized submissions in fetch
order) truncated to the first `limit` items — a positional reversal, not a
timestamp comparison sort — and the result length is at most `limit`. -/
theorem c1_combined_portfolio_reversal
    (get_documents : Storage) (limit : Nat) (ps ss : List Doc)
    (hp : get_documents "project" limit = Except.ok ps)
    (hs : get_documents "submission" limit = Except.ok ss) :
    combined_portfolio get_documents limit =
      Except.ok (((ps.map normalizeProject ++
        ss.map normalizeSubmission).reverse).take limit)
    ∧ (((ps.map normalizeProject ++
        ss.map normalizeSubmission).reverse).take limit).length ≤ limit := by
  constructor
  · simp only [combined_portfolio, hp, hs, portfolio_items_eq]
  · exact List.length_take_le _ _

def projW : Doc := [("_id", Value.vOid "p1"), ("title", Value.vStr "P")]

def subW : Doc :=
  [("_id", Value.vOid "s1"), ("name", Value.vStr "alice"),
   ("title", Value.vStr "S")]

def storageOkW : Storage := fun kind _ =>
  if kind = "project" then Except.ok [projW] else Except.ok [subW]

/-- Witness for C1 at one fetched project and one fetched submission with
limit 2: the output is the reversal [S-normalized, P-normalized]. -/
theorem c1_combined_portfolio_reversal_witness :
    combined_portfolio storageOkW 2 =
      Except.ok ((([projW].map normalizeProject ++
        [subW].map normalizeSubmission).reverse).take 2)
    ∧ ((([projW].map normalizeProject ++
        [subW].map normalizeSubmission).reverse).take 2).length ≤ 2 :=
  c1_combined_portfolio_reversal storageOkW 2 [projW] [subW] rfl rfl

def c2doc : Doc :=
  [("_id", Value.vOid "abc123"), ("id", Value.vStr "raw-id"),
   ("published_at", Value.vDatetime 7)]

/-- C2 counterexample: the claim reads "any field whose value is a
date/time is coerced to an ISO-8601 string, every other non-identifier
field passes through unchanged".  On `c2doc` the datetime under
`published_at` survives uncoerced (the code only coerces the `created_at`
and `updated_at` keys), and the non-datetime `id` field does not pass
through unchanged (it is overwritten by the stringified `_id`). -/
theorem c2_blanket_coercion_counterexample :
    dGet? (serialize c2doc) "published_at" = some (Value.vDatetime 7)
    ∧ (∀ s : String, Value.vDatetime 7 ≠ Value.vStr s)
    ∧ dGet? c2doc "id" = some (Value.vStr "raw-id")
    ∧ dGet? (serialize c2doc) "id" = some (Value.vStr "abc123")
    ∧ (Value.vStr "abc123" : Value) ≠ Value.vStr "raw-id" := by
  refine ⟨by rfl, ?_, by rfl, by rfl, by decide⟩
  intro s h
  cases h

/-- C2 (amended): serialization coerces the `created_at` and `updated_at`
fields to ISO-8601 strings when their values are date/times (and leaves
them unchanged when they are not); every field other than `_id`, `id`,
`created_at` and `updated_at` passes through with its value unchanged. -/
theorem c2_serialize_field_treatment (doc : Doc) (k : String) :
    ((k = "created_at" ∨ k = "updated_at") →
      (∀ t0 : Nat, dGet? doc k = some (Value.vDatetime t0) →
        dGet? (serialize doc) k = some (Value.vStr (isoStr t0)))
      ∧ (∀ v : Value, dGet? doc k = some v → hasIsoformat v = false →
        dGet? (serialize doc) k = some v))
    ∧ (k ≠ "_id" → k ≠ "id" → k ≠ "created_at" → k ≠ "updated_at" →
      dGet? (serialize doc) k = dGet? doc k) :=
  ⟨fun hk =>
    ⟨fun t0 hv => dGet?_serialize_datetime doc k t0 hk hv,
     fun v hv hni => dGet?_serialize_nondatetime doc k v hk hv hni⟩,
   fun h1 h2 h3 h4 => dGet?_serialize_other doc k h1 h2 h3 h4⟩

def docIsoW : Doc := [("created_at", Value.vDatetime 3), ("title", Value.vStr "x")]

def docNonIsoW : Doc := [("updated_at", Value.vStr "later")]

/-- Witness for the amended C2 on concrete documents: a datetime
`created_at` is coerced, a string `updated_at` is kept, and `title` passes
through. -/
theorem c2_serialize_field_treatment_witness :
    dGet? (serialize docIsoW) "created_at" = some (Value.vStr (isoStr 3))
    ∧ dGet? (serialize docNonIsoW) "updated_at" = some (Value.vStr "later")
    ∧ dGet? (serialize docIsoW) "title" = dGet? docIsoW "title" :=
  ⟨((c2_serialize_field_treatment docIsoW "created_at").1 (Or.inl rfl)).1 3 rfl,
   ((c2_serialize_field_treatment docNonIsoW "updated_at").1 (Or.inr rfl)).2
     (Value.vStr "later") rfl rfl,
   (c2_serialize_field_treatment docIsoW "title").2
     (by decide) (by decide) (by decide) (by decide)⟩

/-- C3: the project arm maps image_url→image, demo_url→demo,
source_url→source, keeps the project's author field, and tags the item
"project"; the submission arm maps link→demo, thumbnail→image, name→author,
sets source to null, and tags the item "submission". -/
theorem c3_normalization_field_mapping (p s : Doc) :
    dGet (normalizeProject p) "type" = Value.vStr "project"
    ∧ dGet (normalizeProject p) "image" = dGet (serialize p) "image_url"
    ∧ dGet (normalizeProject p) "demo" = dGet (serialize p) "demo_url"
    ∧ dGet (normalizeProject p) "source" = dGet (serialize p) "source_url"
    ∧ dGet (normalizeProject p) "author" = dGet p "author"
    ∧ dGet (normalizeSubmission s) "type" = Value.vStr "submission"
    ∧ dGet (normalizeSubmission s) "demo" = dGet (serialize s) "link"
    ∧ dGet (normalizeSubmission s) "image" = dGet (serialize s) "thumbnail"
    ∧ dGet (normalizeSubmission s) "author" = dGet (serialize s) "name"
    ∧ dGet (normalizeSubmission s) "source" = Value.vNull := by
  refine ⟨rfl, rfl, rfl, rfl, ?_, rfl, rfl, rfl, rfl, rfl⟩
  show dGet (serialize p) "author" = dGet p "author"
  unfold dGet
  rw [dGet?_serialize_other p "author" (by decide) (by decide) (by decide) (by decide)]

/-- C4: the serialized output never contains `_id`; when the input holds a
non-None storage identifier, the output holds `id` as its string form; and
empty or absent input serializes to the empty object. -/
theorem c4_serialize_id_contract (doc : Doc) (v : Value) :
    dGet? (serialize doc) "_id" = none
    ∧ (dGet? doc "_id" = some v → v ≠ Value.vNull →
        dGet? (serialize doc) "id" = some (Value.vStr (pyStr v)))
    ∧ serialize [] = []
    ∧ serializeOpt none = [] :=
  ⟨dGet?_serialize_id_removed doc,
   fun hv hnn => dGet?_serialize_id doc v hv hnn, rfl, rfl⟩

/-- Witness for C4 on a concrete document with an ObjectId `_id`. -/
theorem c4_serialize_id_contract_witness :
    dGet? (serialize projW) "_id" = none
    ∧ dGet? (serialize projW) "id" = some (Value.vStr (pyStr (Value.vOid "p1")))
    ∧ serialize [] = []
    ∧ serializeOpt none = [] :=
  ⟨(c4_serialize_id_contract projW (Value.vOid "p1")).1,
   (c4_serialize_id_contract projW (Value.vOid "p1")).2.1 rfl (by decide),
   (c4_serialize_id_contract projW (Value.vOid "p1")).2.2.1,
   (c4_serialize_id_contract projW (Value.vOid "p1")).2.2.2⟩

/-- C5: when storage honours the cap, both list handlers answer with the
serialized records in storage order (no sort applied) and the result length
is at most the limit. -/
theorem c5_list_by_kind_bounded_ordered (get_documents : Storage) (limit : Nat) :
    (∀ items, get_documents "project" limit = Except.ok items →
      items.length ≤ limit →
      list_projects get_documents limit = Except.ok (items.map serialize)
      ∧ (items.map serialize).length ≤ limit)
    ∧ (∀ items, get_documents "submission" limit = Except.ok items →
      items.length ≤ limit →
      list_submissions get_documents limit = Except.ok (items.map serialize)
      ∧ (items.map serialize).length ≤ limit) := by
  constructor
  · intro items h hlen
    refine ⟨?_, by simpa using hlen⟩
    simp only [list_projects, h]
  · intro items h hlen
    refine ⟨?_, by simpa using hlen⟩
    simp only [list_submissions, h]

/-- Witness for C5 with a one-document store and the default limit 24. -/
theorem c5_list_by_kind_bounded_ordered_witness :
    (list_projects storageOkW 24 = Except.ok ([projW].map serialize)
      ∧ ([projW].map serialize).length ≤ 24)
    ∧ (list_submissions storageOkW 24 = Except.ok ([subW].map serialize)
      ∧ ([subW].map serialize).length ≤ 24) :=
  ⟨(c5_list_by_kind_bounded_ordered storageOkW 24).1 [projW] rfl (by decide),
   (c5_list_by_kind_bounded_ordered storageOkW 24).2 [subW] rfl (by decide)⟩

/-- C6: a storage failure in any data-bearing endpoint surfaces as a 500
carrying the failure text; in combinedPortfolio a failure of either fetch
aborts the whole operation with that error and no partial result. -/
theorem c6_storage_failure_maps_to_500 :
    (∀ (g : Storage) (limit : Nat) (e : String),
      g "project" limit = Except.error e →
      list_projects g limit = Except.error ⟨500, e⟩)
    ∧ (∀ (g : Storage) (limit : Nat) (e : String),
      g "submission" limit = Except.error e →
      list_submissions g limit = Except.error ⟨500, e⟩)
    ∧ (∀ (g : Storage) (limit : Nat) (e : String),
      g "project" limit = Except.error e →
      combined_portfolio g limit = Except.error ⟨500, e⟩)
    ∧ (∀ (g : Storage) (limit : Nat) (ps : List Doc) (e : String),
      g "project" limit = Except.ok ps →
      g "submission" limit = Except.error e →
      combined_portfolio g limit = Except.error ⟨500, e⟩)
    ∧ (∀ (item : Submission)
        (create_document : Submission → Except String String) (e : String),
      create_document item = Except.error e →
      submit_portfolio item create_document = Except.error ⟨500, e⟩) := by
  refine ⟨?_, ?_, ?_, ?_, ?_⟩
  · intro g limit e h
    simp only [list_projects, h]
  · intro g limit e h
    simp only [list_submissions, h]
  · intro g limit e h
    simp only [combined_portfolio, h]
  · intro g limit ps e hp hs
    simp only [combined_portfolio, hp, hs]
  · intro item cd e h
    simp only [submit_portfolio, h]

def storageFailW : Storage := fun _ _ => Except.error "boom"

def storageMixW : Storage := fun kind _ =>
  if kind = "project" then Except.ok [] else Except.error "boom"

def itemW : Submission := ⟨"alice", "S", none, none, none, []⟩

def createFailW : Submission → Except String String :=
  fun _ => Except.error "down"

/-- Witness for C6: every endpoint observed at a concretely failing
storage. -/
theorem c6_storage_failure_maps_to_500_witness :
    list_projects storageFailW 3 = Except.error ⟨500, "boom"⟩
    ∧ list_submissions storageFailW 3 = Except.error ⟨500, "boom"⟩
    ∧ combined_portfolio storageFailW 3 = Except.error ⟨500, "boom"⟩
    ∧ combined_portfolio storageMixW 3 = Except.error ⟨500, "boom"⟩
    ∧ submit_portfolio itemW createFailW = Except.error ⟨500, "down"⟩ :=
  ⟨c6_storage_failure_maps_to_500.1 storageFailW 3 "boom" rfl,
   c6_storage_failure_maps_to_500.2.1 storageFailW 3 "boom" rfl,
   c6_storage_failure_maps_to_500.2.2.1 storageFailW 3 "boom" rfl,
   c6_storage_failure_maps_to_500.2.2.2.1 storageMixW 3 [] "boom" rfl rfl,
   c6_storage_failure_maps_to_500.2.2.2.2 itemW createFailW "down" rfl⟩

/-- C7: a submission body missing `name` or `title` is rejected by
validation as a client error (422) before any storage call; a valid body is
persisted once and answered with success and the new identifier. -/
theorem c7_submit_validation_gate :
    (∀ (raw : Doc) (create_document : Submission → Except String String),
      (dGet? raw "name" = none ∨ dGet? raw "title" = none) →
      (submit_endpoint raw create_document).2 = []
      ∧ ∃ e, (submit_endpoint raw create_document).1 = Except.error ⟨422, e⟩)
    ∧ (∀ (raw : Doc) (item : Submission)
        (create_document : Submission → Except String String) (new_id : String),
      validate_submission raw = Except.ok item →
      create_document item = Except.ok new_id →
      submit_endpoint raw create_document =
        (Except.ok [("success", Value.vBool true), ("id", Value.vStr new_id)],
         [item])) := by
  constructor
  · intro raw cd h
    obtain ⟨e, he⟩ := validate_submission_missing raw h
    constructor
    · simp only [submit_endpoint, he]
    · exact ⟨e, by simp only [submit_endpoint, he]⟩
  · intro raw item cd new_id hval hcd
    simp only [submit_endpoint, hval, submit_portfolio, hcd]

def rawMissingW : Doc := [("name", Value.vStr "alice")]

def rawValidW : Doc := [("name", Value.vStr "alice"), ("title", Value.vStr "S")]

def createOkW : Submission → Except String String :=
  fun _ => Except.ok "new1"

/-- Witness for C7: a body missing `title` never reaches storage, a valid
body is persisted and acknowledged. -/
theorem c7_submit_validation_gate_witness :
    ((submit_endpoint rawMissingW createOkW).2 = []
      ∧ ∃ e, (submit_endpoint rawMissingW createOkW).1 = Except.error ⟨422, e⟩)
    ∧ submit_endpoint rawValidW createOkW =
        (Except.ok [("success", Value.vBool true), ("id", Value.vStr "new1")],
         [⟨"alice", "S", none, none, none, []⟩]) :=
  ⟨c7_submit_validation_gate.1 rawMissingW createOkW (Or.inr rfl),
   c7_submit_validation_gate.2 rawValidW ⟨"alice", "S", none, none, none, []⟩
     createOkW "new1" rfl rfl⟩

/-- C8: the health check is a total function of the observed storage state:
the backend flag is always set, at most 10 collection names are reported,
an uninitialized storage handle yields the unavailable-state string, and a
failure of the listing step is reported inline with the error text
truncated to at most 50 characters. -/
theorem c8_health_check_total (db : DbHandle) (env : Env)
    (nm : Option String) (e : String) :
    (test_database db env).backend = "✅ Running"
    ∧ (test_database db env).collections.length ≤ 10
    ∧ (test_database DbHandle.noneDb env).database =
        "⚠️  Available but not initialized"
    ∧ (test_database (DbHandle.someDb nm (Except.error e)) env).database =
        "⚠️  Connected but Error: " ++ pyTakeStr e 50
    ∧ (pyTakeStr e 50).length ≤ 50 := by
  refine ⟨?_, ?_, rfl, rfl, ?_⟩
  · cases db with
    | noneDb => rfl
    | someDb nm2 lc => cases lc <;> rfl
  · cases db with
    | noneDb => exact Nat.zero_le 10
    | someDb nm2 lc =>
      cases lc with
      | ok cols =>
        show (cols.take 10).length ≤ 10
        exact List.length_take_le _ _
      | error e2 => exact Nat.zero_le 10
  · show (e.data.take 50).length ≤ 50
    exact List.length_take_le _ _

/-- C9: normalization is total and produces exactly the nine keys; mapped
fields absent from the source record become null (tags the empty list), and
any other source field — created_at and updated_at included — is dropped. -/
theorem c9_normalization_shape (p s : Doc) :
    (normalizeProject p).map Prod.fst = normKeys
    ∧ (normalizeSubmission s).map Prod.fst = normKeys
    ∧ (∀ k, ¬ k ∈ normKeys →
        dGet? (normalizeProject p) k = none
        ∧ dGet? (normalizeSubmission s) k = none)
    ∧ (∀ nk sk, (nk, sk) ∈ projFieldPairs → dGet? p sk = none →
        dGet (normalizeProject p) nk = Value.vNull)
    ∧ (dGet? p "tags" = none → dGet (normalizeProject p) "tags" = Value.vList [])
    ∧ (∀ nk sk, (nk, sk) ∈ subFieldPairs → dGet? s sk = none →
        dGet (normalizeSubmission s) nk = Value.vNull)
    ∧ (dGet? s "tags" = none → dGet (normalizeSubmission s) "tags" = Value.vList [])
    ∧ (dGet? p "_id" = none → dGet? p "id" = none →
        dGet (normalizeProject p) "id" = Value.vNull) := by
  refine ⟨rfl, rfl, ?_, ?_, ?_, ?_, ?_, ?_⟩
  · intro k hk
    exact ⟨dGet?_eq_none_of_not_mem_keys _ _ hk,
           dGet?_eq_none_of_not_mem_keys _ _ hk⟩
  · intro nk sk hmem hnone
    simp only [projFieldPairs, List.mem_cons, List.not_mem_nil, or_false,
      Prod.mk.injEq] at hmem
    rcases hmem with ⟨rfl, rfl⟩ | ⟨rfl, rfl⟩ | ⟨rfl, rfl⟩ | ⟨rfl, rfl⟩ |
      ⟨rfl, rfl⟩ | ⟨rfl, rfl⟩
    · exact dGet_serialize_none p "title"
        (by decide) (by decide) (by decide) (by decide) hnone
    · exact dGet_serialize_none p "description"
        (by decide) (by decide) (by decide) (by decide) hnone
    · exact dGet_serialize_none p "image_url"
        (by decide) (by decide) (by decide) (by decide) hnone
    · exact dGet_serialize_none p "demo_url"
        (by decide) (by decide) (by decide) (by decide) hnone
    · exact dGet_serialize_none p "source_url"
        (by decide) (by decide) (by decide) (by decide) hnone
    · exact dGet_serialize_none p "author"
        (by decide) (by decide) (by decide) (by decide) hnone
  · intro h
    have hser : dGet? (serialize p) "tags" = none := by
      rw [dGet?_serialize_other p "tags"
        (by decide) (by decide) (by decide) (by decide)]
      exact h
    show (dGet? (serialize p) "tags").getD (Value.vList []) = Value.vList []
    rw [hser]
    rfl
  · intro nk sk hmem hnone
    simp only [subFieldPairs, List.mem_cons, List.not_mem_nil, or_false,
      Prod.mk.injEq] at hmem
    rcases hmem with ⟨rfl, rfl⟩ | ⟨rfl, rfl⟩ | ⟨rfl, rfl⟩ | ⟨rfl, rfl⟩ |
      ⟨rfl, rfl⟩
    · exact dGet_serialize_none s "title"
        (by decide) (by decide) (by decide) (by decide) hnone
    · exact dGet_serialize_none s "description"
        (by decide) (by decide) (by decide) (by decide) hnone
    · exact dGet_serialize_none s "thumbnail"
        (by decide) (by decide) (by decide) (by decide) hnone
    · exact dGet_serialize_none s "link"
        (by decide) (by decide) (by decide) (by decide) hnone
    · exact dGet_serialize_none s "name"
        (by decide) (by decide) (by decide) (by decide) hnone
  · intro h
    have hser : dGet? (serialize s) "tags" = none := by
      rw [dGet?_serialize_other s "tags"
        (by decide) (by decide) (by decide) (by decide)]
      exact h
    show (dGet? (serialize s) "tags").getD (Value.vList []) = Value.vList []
    rw [hser]
    rfl
  · intro h1 h2
    have hser := dGet?_serialize_id_none p h1 h2
    show (dGet? (serialize p) "id").getD Value.vNull = Value.vNull
    rw [hser]
    rfl

def p9W : Doc := [("title", Value.vStr "T")]

def s9W : Doc := [("name", Value.vStr "N")]

/-- Witness for C9 at concrete sparse records. -/
theorem c9_normalization_shape_witness :
    ((normalizeProject p9W).map Prod.fst = normKeys
      ∧ dGet? (normalizeProject p9W) "created_at" = none)
    ∧ dGet (normalizeProject p9W) "image" = Value.vNull
    ∧ dGet (normalizeProject p9W) "tags" = Value.vList []
    ∧ dGet (normalizeProject p9W) "id" = Value.vNull
    ∧ dGet (normalizeSubmission s9W) "image" = Value.vNull
    ∧ dGet (normalizeSubmission s9W) "tags" = Value.vList [] :=
  ⟨⟨(c9_normalization_shape p9W s9W).1,
    ((c9_normalization_shape p9W s9W).2.2.1 "created_at" (by decide)).1⟩,
   (c9_normalization_shape p9W s9W).2.2.2.1 "image" "image_url" (by decide) rfl,
   (c9_normalization_shape p9W s9W).2.2.2.2.1 rfl,
   (c9_normalization_shape p9W s9W).2.2.2.2.2.2.2 rfl rfl,
   (c9_normalization_shape p9W s9W).2.2.2.2.2.1 "image" "thumbnail" (by decide) rfl,
   (c9_normalization_shape p9W s9W).2.2.2.2.2.2.1 rfl⟩

/-- C10: the final database_url / database_name fields of the health check
depend only on the environment, not on the storage state: two runs
differing only in storage state agree on them, and their value is the
set/not-set string dictated by the environment. -/
theorem c10_env_fields_noninterference (db1 db2 : DbHandle) (env : Env) :
    (test_database db1 env).database_url = (test_database db2 env).database_url
    ∧ (test_database db1 env).database_name = (test_database db2 env).database_name
    ∧ (test_database db1 env).database_url =
        Value.vStr (if env.database_url_set then "✅ Set" else "❌ Not Set")
    ∧ (test_database db1 env).database_name =
        Value.vStr (if env.database_name_set then "✅ Set" else "❌ Not Set") := by
  have h : ∀ db : DbHandle,
      (test_database db env).database_url =
        Value.vStr (if env.database_url_set then "✅ Set" else "❌ Not Set")
      ∧ (test_database db env).database_name =
        Value.vStr (if env.database_name_set then "✅ Set" else "❌ Not Set") := by
    intro db
    cases db with
    | noneDb => exact ⟨rfl, rfl⟩
    | someDb nm lc => cases lc <;> exact ⟨rfl, rfl⟩
  exact ⟨(h db1).1.trans (h db2).1.symm, (h db1).2.trans (h db2).2.symm,
    (h db1).1, (h db1).2⟩

end Backend
